import Mathlib

/-!
Verification development for the Cosmos validator monitoring bot
(discord-cosmos-validator-monitor).

The definitions below are shallow embeddings of the Python source:
  - src/utils/api_helpers.py  (pubkey_to_consensus_address, get_validator_info)
  - src/bot.py                (the older monolithic revision of the same
                               functions and monitoring loops)
  - src/cogs/monitoring_tasks.py (the cog revision of the monitoring loops)
  - src/db_manager.py         (the persistent repository)

Machine integers are modelled as Nat/Int with explicit reductions modulo
2^32 where the source relies on 32-bit wrap-around (SHA-256).  Byte
strings are List Nat (each element a byte value).  Fallible code returns
Option.
-/

/-! ## SHA-256 (hashlib.sha256, as called by pubkey_to_consensus_address) -/

/-- Reduce to a 32-bit word, the wrap-around used throughout SHA-256. -/
def w32 (n : Nat) : Nat := n % 4294967296

/-- Right rotation of a 32-bit word (argument assumed < 2^32). -/
def rotr32 (x r : Nat) : Nat := w32 ((x >>> r) ||| (x <<< (32 - r)))

def sha256K : List Nat :=
  [1116352408, 1899447441, 3049323471, 3921009573, 961987163,
   1508970993, 2453635748, 2870763221, 3624381080, 310598401,
   607225278, 1426881987, 1925078388, 2162078206, 2614888103,
   3248222580, 3835390401, 4022224774, 264347078, 604807628,
   770255983, 1249150122, 1555081692, 1996064986, 2554220882,
   2821834349, 2952996808, 3210313671, 3336571891, 3584528711,
   113926993, 338241895, 666307205, 773529912, 1294757372,
   1396182291, 1695183700, 1986661051, 2177026350, 2456956037,
   2730485921, 2820302411, 3259730800, 3345764771, 3516065817,
   3600352804, 4094571909, 275423344, 430227734, 506948616,
   659060556, 883997877, 958139571, 1322822218, 1537002063,
   1747873779, 1955562222, 2024104815, 2227730452, 2361852424,
   2428436474, 2756734187, 3204031479, 3329325298]

def sha256InitH : List Nat :=
  [1779033703, 3144134277, 1013904242, 2773480762, 1359893119,
   2600822924, 528734635, 1541459225]

/-- SHA-256 padding: append 0x80, zero bytes, then the 64-bit big-endian
bit length, so that the total length is a multiple of 64 bytes. -/
def sha256Pad (msg : List Nat) : List Nat :=
  let len := msg.length
  let bitLen := 8 * len
  let padZeros := (55 + 64 - len % 64) % 64
  msg ++ [0x80] ++ List.replicate padZeros 0 ++
    [(bitLen >>> 56) % 256, (bitLen >>> 48) % 256, (bitLen >>> 40) % 256,
     (bitLen >>> 32) % 256, (bitLen >>> 24) % 256, (bitLen >>> 16) % 256,
     (bitLen >>> 8) % 256, bitLen % 256]

/-- Split a byte list into 64-byte blocks; structural recursion on a fuel
that starts at the list length (each step consumes at least one element,
so the fuel never runs out). -/
def toBlocksAux : Nat → List Nat → List (List Nat)
  | _, [] => []
  | 0, _ :: _ => []
  | fuel + 1, a :: t => (a :: t).take 64 :: toBlocksAux fuel ((a :: t).drop 64)

def toBlocks (l : List Nat) : List (List Nat) := toBlocksAux l.length l

/-- Combine consecutive groups of four bytes into big-endian 32-bit words. -/
def toWords : List Nat → List Nat
  | a :: b :: c :: d :: rest =>
      (a * 16777216 + b * 65536 + c * 256 + d) :: toWords rest
  | _ => []

def smallSigma0 (x : Nat) : Nat := (rotr32 x 7) ^^^ (rotr32 x 18) ^^^ (x >>> 3)
def smallSigma1 (x : Nat) : Nat := (rotr32 x 17) ^^^ (rotr32 x 19) ^^^ (x >>> 10)
def bigSigma0 (x : Nat) : Nat := (rotr32 x 2) ^^^ (rotr32 x 13) ^^^ (rotr32 x 22)
def bigSigma1 (x : Nat) : Nat := (rotr32 x 6) ^^^ (rotr32 x 11) ^^^ (rotr32 x 25)
def chFn (x y z : Nat) : Nat := (x &&& y) ^^^ ((x ^^^ 0xffffffff) &&& z)
def majFn (x y z : Nat) : Nat := (x &&& y) ^^^ (x &&& z) ^^^ (y &&& z)

/-- One step of the message-schedule extension: append word `w[i]` computed
from `w[i-2]`, `w[i-7]`, `w[i-15]`, `w[i-16]`. -/
def extendStep (w : List Nat) : List Nat :=
  w ++ [w32 (smallSigma1 (w.getD (w.length - 2) 0) + w.getD (w.length - 7) 0 +
             smallSigma0 (w.getD (w.length - 15) 0) + w.getD (w.length - 16) 0)]

def extendN : Nat → List Nat → List Nat
  | 0, w => w
  | n + 1, w => extendN n (extendStep w)

/-- One round of the SHA-256 compression function on the 8-word state. -/
def compressStep (st : List Nat) (kw : Nat × Nat) : List Nat :=
  match st with
  | [a, b, c, d, e, f, g, h] =>
      let t1 := w32 (h + bigSigma1 e + chFn e f g + kw.1 + kw.2)
      let t2 := w32 (bigSigma0 a + majFn a b c)
      [w32 (t1 + t2), a, b, c, w32 (d + t1), e, f, g]
  | other => other

def compressBlock (h : List Nat) (block : List Nat) : List Nat :=
  let w := extendN 48 (toWords block)
  let st := (sha256K.zip w).foldl compressStep h
  List.zipWith (fun x y => w32 (x + y)) h st

/-- Big-endian bytes of a 32-bit word. -/
def wordBytes (x : Nat) : List Nat :=
  [(x >>> 24) % 256, (x >>> 16) % 256, (x >>> 8) % 256, x % 256]

/-- SHA-256 digest of a byte list, as a list of 32 bytes. -/
def sha256 (msg : List Nat) : List Nat :=
  ((toBlocks (sha256Pad msg)).foldl compressBlock sha256InitH).foldr
    (fun x acc => wordBytes x ++ acc) []

/-! ## convertbits and bech32_encode (the bech32 reference library) -/

/-- The inner while-loop of convertbits: repeatedly emit `tobits`-sized
groups from the accumulator while at least `tobits` bits remain;
structural recursion on a fuel that starts at `bits` (each iteration
removes `tobits` ≥ 1 bits, so the fuel never runs out). -/
def emitGroupsAux : Nat → Nat → Nat → Nat → Nat → List Nat × Nat
  | 0, _, _, _, bits => ([], bits)
  | fuel + 1, tobits, maxv, acc, bits =>
    if 0 < tobits ∧ tobits ≤ bits then
      let bits2 := bits - tobits
      let rest := emitGroupsAux fuel tobits maxv acc bits2
      (((acc >>> bits2) &&& maxv) :: rest.1, rest.2)
    else ([], bits)

def emitGroups (tobits maxv acc : Nat) (bits : Nat) : List Nat × Nat :=
  emitGroupsAux bits tobits maxv acc bits

/-- One iteration of convertbits' for-loop body: reject a value that does
not fit in `frombits` bits, otherwise shift it into the accumulator and
emit all complete `tobits`-sized groups. -/
def convertbitsStep (frombits tobits maxAcc maxv : Nat)
    (st : Option (Nat × Nat × List Nat)) (value : Nat) :
    Option (Nat × Nat × List Nat) :=
  match st with
  | none => none
  | some (acc, bits, ret) =>
    if value >>> frombits ≠ 0 then none
    else
      let acc' := ((acc <<< frombits) ||| value) &&& maxAcc
      let eg := emitGroups tobits maxv acc' (bits + frombits)
      some (acc', eg.2, ret ++ eg.1)

/-- General power-of-2 base conversion, translated from the bech32 reference
implementation's convertbits (negative inputs cannot occur for Nat). -/
def convertbits (data : List Nat) (frombits tobits : Nat) (pad : Bool) :
    Option (List Nat) :=
  let maxv := (1 <<< tobits) - 1
  let maxAcc := (1 <<< (frombits + tobits - 1)) - 1
  match data.foldl (convertbitsStep frombits tobits maxAcc maxv) (some (0, 0, [])) with
  | none => none
  | some (acc, bits, ret) =>
    if pad then
      if bits ≠ 0 then some (ret ++ [(acc <<< (tobits - bits)) &&& maxv])
      else some ret
    else if tobits ≤ bits ∨ ((acc <<< (tobits - bits)) &&& maxv) ≠ 0 then none
    else some ret

def bech32Charset : List Char :=
  ['q', 'p', 'z', 'r', 'y', '9', 'x', '8', 'g', 'f', '2', 't', 'v', 'd', 'w',
   '0', 's', '3', 'j', 'n', '5', '4', 'k', 'h', 'c', 'e', '6', 'm', 'u', 'a',
   '7', 'l']

def bech32HrpExpand (hrp : String) : List Nat :=
  (hrp.data.map (fun c => c.toNat >>> 5)) ++ [0] ++
    (hrp.data.map (fun c => c.toNat &&& 31))

def bech32Polymod (values : List Nat) : Nat :=
  let gen := [0x3b6a57b2, 0x26508e6d, 0x1ea119fa, 0x3d4233dd, 0x2a1462b3]
  values.foldl
    (fun chk value =>
      let top := chk >>> 25
      let chk' := ((chk &&& 0x1ffffff) <<< 5) ^^^ value
      (List.range 5).foldl
        (fun c i => if (top >>> i) &&& 1 = 1 then c ^^^ gen.getD i 0 else c)
        chk')
    1

def bech32CreateChecksum (hrp : String) (data : List Nat) : List Nat :=
  let values := bech32HrpExpand hrp ++ data
  let pm := bech32Polymod (values ++ [0, 0, 0, 0, 0, 0]) ^^^ 1
  (List.range 6).map (fun i => (pm >>> (5 * (5 - i))) &&& 31)

def bech32_encode (hrp : String) (data : List Nat) : String :=
  let combined := data ++ bech32CreateChecksum hrp data
  hrp ++ "1" ++ String.mk (combined.map (fun d => bech32Charset.getD d 'q'))

/-! ## Consensus address derivation

Two revisions of the same function exist in the repository:
  - `pubkey_to_consensus_address` below embeds src/utils/api_helpers.py
    lines 23-35 (the cog revision): the decoded bytes are hashed as-is,
    with no inspection of their length.
  - `pubkey_to_consensus_address_bot` embeds src/bot.py lines 60-85 (the
    monolithic revision): the raw key bytes are chosen by decoded byte
    length and marker, and unrecognized formats return None.
Both embeddings start from the already base64-decoded byte list (the
`pubkey_bytes` value in the Python source). -/

/-- src/utils/api_helpers.py, pubkey_to_consensus_address: SHA-256 of the
decoded bytes, first 20 bytes, 8-to-5-bit conversion, bech32 encoding.
A None from convertbits propagates as None (in Python, bech32_encode on
None raises and the except-branch returns None). -/
def pubkey_to_consensus_address (pubkeyBytes : List Nat) (valconsHrp : String) :
    Option String :=
  let addressBytes := (sha256 pubkeyBytes).take 20
  match convertbits addressBytes 8 5 true with
  | none => none
  | some bits => some (bech32_encode valconsHrp bits)

/-- src/bot.py lines 64-73: choose the raw key bytes by decoded length and
marker (32-byte raw Ed25519 as-is; 36-byte with the 4-byte Amino header
0x1624de64 stripped; 33-byte compressed secp256k1 with leading 0x02/0x03
as-is), otherwise None. -/
def rawKeyBytes (pubkeyBytes : List Nat) : Option (List Nat) :=
  if pubkeyBytes.length = 32 then some pubkeyBytes
  else if pubkeyBytes.length = 36 ∧ pubkeyBytes.take 4 = [0x16, 0x24, 0xde, 0x64] then
    some (pubkeyBytes.drop 4)
  else if pubkeyBytes.length = 33 ∧ (pubkeyBytes.headD 0 = 0x02 ∨ pubkeyBytes.headD 0 = 0x03) then
    some pubkeyBytes
  else none

/-- src/bot.py, pubkey_to_consensus_address: length/marker dispatch, then
SHA-256, first 20 bytes, convertbits(.., 8, 5, True), bech32 encoding. -/
def pubkey_to_consensus_address_bot (pubkeyBytes : List Nat) (valconsHrp : String) :
    Option String :=
  match rawKeyBytes pubkeyBytes with
  | none => none
  | some raw =>
    let addressBytes := (sha256 raw).take 20
    match convertbits addressBytes 8 5 true with
    | none => none
    | some bits => some (bech32_encode valconsHrp bits)

/-! ## Validator status resolver (src/utils/api_helpers.py, get_validator_info)

Only the fields the health classifier consumes are modelled: on success the
record carries moniker, display status, jailed flag and missed-block count.
The display status is derived from the jailed flag and the raw bonding
status exactly as in lines 62-66 of api_helpers.py. -/

/-- api_helpers.py lines 62-66, the dictionary lookup with fallback to the
raw string: map the three BOND_STATUS values to display names, pass any
other raw status string through unchanged. -/
def bondStatusDisplay (raw : String) : String :=
  if raw = "BOND_STATUS_BONDED" then "Bonded"
  else if raw = "BOND_STATUS_UNBONDING" then "Unbonding"
  else if raw = "BOND_STATUS_UNBONDED" then "Unbonded"
  else raw

/-- api_helpers.py line 62: status is the literal "JAILED" when jailed,
otherwise the mapped bonding status. -/
def resolvedStatus (jailed : Bool) (raw : String) : String :=
  if jailed then "JAILED" else bondStatusDisplay raw

/-! ## Validator health classifier
(src/cogs/monitoring_tasks.py, check_and_notify_validator_status) -/

/-- The persisted row fields the classifier reads and writes
(moniker, status, missed_blocks); missed_blocks is a Python int with -1 as
the unavailable sentinel, modelled as Int. -/
structure ValRow where
  moniker : String
  status : String
  missed : Int
deriving DecidableEq, Repr

/-- Outcome of the get_validator_info fetch as the classifier sees it:
either failure, or the success fields it reads. -/
inductive FetchResult where
  | failure
  | success (moniker : String) (status : String) (jailed : Bool) (missed : Int)
deriving DecidableEq, Repr

/-- The alert kinds the cog classifier can emit.  The cog revision has no
API-error and no API-recovered alert kind: no alert is constructed on a
failed fetch. -/
inductive Alert where
  | jailed
  | recoveredFromJail
  | missedBlocksWarning
  | recoveredMissedBlocks
deriving DecidableEq, Repr

/-- monitoring_tasks.py line 22. -/
def MISSED_BLOCKS_THRESHOLD : Int := 10

/-- monitoring_tasks.py lines 106-142: given the previous persisted status
and the fetched success fields, decide which alert (if any) fires and which
status string is written back (db_status_to_save). -/
def classifyCore (oldStatus : String) (newStatus : String) (newJailed : Bool)
    (newMissed : Int) : Option Alert × String :=
  if newJailed ∧ oldStatus ≠ "JAILED" then
    (some Alert.jailed, "JAILED")
  else if ¬newJailed ∧ oldStatus = "JAILED" then
    (some Alert.recoveredFromJail, newStatus)
  else if ¬newJailed then
    if newMissed ≥ MISSED_BLOCKS_THRESHOLD then
      (if oldStatus ≠ "WARNING_MISSED_BLOCKS" then some Alert.missedBlocksWarning
       else none,
       "WARNING_MISSED_BLOCKS")
    else if newMissed < MISSED_BLOCKS_THRESHOLD ∧ oldStatus = "WARNING_MISSED_BLOCKS" then
      (some Alert.recoveredMissedBlocks, newStatus)
    else (none, newStatus)
  else (none, newStatus)

/-- Result of one classifier run: the alert whose send was attempted (if
any) and the row written back by db_manager.update_validator_status (None
when the function returned without writing). -/
structure ClassifyResult where
  notification : Option Alert
  dbWrite : Option ValRow
deriving DecidableEq, Repr

/-- monitoring_tasks.py lines 80-159, check_and_notify_validator_status as
a function of the previous row, the fetch outcome, and whether
bot.get_channel found the destination channel.
  - Failure path (lines 92-96): no alert is constructed; the row is
    updated to API_ERROR (previous missed/moniker retained) only when the
    previous status was not already API_ERROR, and the function returns
    before the final write either way.
  - Success path: classifyCore decides alert and status; when an alert is
    pending and the channel is missing, line 147 returns before the final
    DB write; otherwise line 159 writes the new status, new missed count
    and fetched moniker. -/
def classify (old : ValRow) (fetch : FetchResult) (channelFound : Bool) :
    ClassifyResult :=
  match fetch with
  | .failure =>
      if old.status ≠ "API_ERROR" then
        { notification := none,
          dbWrite := some { moniker := old.moniker, status := "API_ERROR",
                            missed := old.missed } }
      else { notification := none, dbWrite := none }
  | .success moniker status jailed missed =>
      let core := classifyCore old.status status jailed missed
      match core.1 with
      | some a =>
          if channelFound then
            { notification := some a,
              dbWrite := some { moniker := moniker, status := core.2,
                                missed := missed } }
          else { notification := none, dbWrite := none }
      | none =>
          { notification := none,
            dbWrite := some { moniker := moniker, status := core.2,
                              missed := missed } }

/-- Run the classifier over a sequence of successful polls, threading the
written row into the next poll's previous row (the write is how state
reaches the next cycle), collecting the alerts sent.  The destination
channel is taken as found. -/
def runPolls (old : ValRow) :
    List (String × String × Bool × Int) → List Alert × ValRow
  | [] => ([], old)
  | (m, s, j, mi) :: rest =>
      let r := classify old (.success m s j mi) true
      let next := (r.dbWrite).getD old
      let tail := runPolls next rest
      ((r.notification.toList) ++ tail.1, tail.2)

/-! ## Governance proposal classifier
(src/cogs/monitoring_tasks.py, monitor_governance, lines 180-225) -/

/-- The fields of a live proposal the classifier reads: its id (the value
of `p.get('id') or p.get('proposal_id')`, the dictionary key) and its
status string. -/
structure Proposal where
  id : String
  status : String
deriving DecidableEq, Repr

/-- The governance notification kinds (monitor_governance lines 208-220). -/
inductive GovNotif where
  | newVotingPeriod (id : String)
  | newDepositPeriod (id : String)
  | finalResult (id : String)
deriving DecidableEq, Repr

/-- Lookup in the cached proposal dict keyed by id; a Python dict built by
comprehension keeps the last entry for a duplicated key, so the last
matching binding wins. -/
def lookupProp (l : List Proposal) (i : String) : Option Proposal :=
  l.reverse.find? (fun p => p.id = i)

/-- monitor_governance lines 204-220: the notification (if any) produced
for one live proposal, given the old cached map. -/
def govNotifFor (old : List Proposal) (p : Proposal) : Option GovNotif :=
  match lookupProp old p.id with
  | none =>
      if p.status = "PROPOSAL_STATUS_VOTING_PERIOD" then
        some (GovNotif.newVotingPeriod p.id)
      else if p.status = "PROPOSAL_STATUS_DEPOSIT_PERIOD" then
        some (GovNotif.newDepositPeriod p.id)
      else none
  | some oldProp =>
      if p.status ≠ oldProp.status then
        if p.status = "PROPOSAL_STATUS_VOTING_PERIOD" then
          some (GovNotif.newVotingPeriod p.id)
        else if p.status = "PROPOSAL_STATUS_PASSED" ∨
                p.status = "PROPOSAL_STATUS_REJECTED" ∨
                p.status = "PROPOSAL_STATUS_FAILED" then
          some (GovNotif.finalResult p.id)
        else none
      else none

/-- monitor_governance lines 195-223, one chain with a successful fetch:
`oldCache` is `_governance_proposals_cache.get(chain_name)` (`none` when
the chain has no entry), `live` the fetched proposal list.  Line 200
tests `not cache.get(chain_name)`, true both for a missing entry and for
an entry holding an empty dict; in that case the cache is seeded from the
live list and no notification is produced (`continue`).  Otherwise each
live proposal is classified against the old map and the cache is replaced
by the live map.  Returns (notifications, new cache entry). -/
def monitorGovernanceStepChain (oldCache : Option (List Proposal))
    (live : List Proposal) : List GovNotif × List Proposal :=
  let coldStart : Bool :=
    match oldCache with
    | none => true
    | some l => l.isEmpty
  if coldStart then ([], live)
  else (live.filterMap (govNotifFor (oldCache.getD [])), live)

/-! ## Upgrade plan classifier

Two revisions exist:
  - `monitorUpgradesStepCog` embeds src/cogs/monitoring_tasks.py,
    monitor_upgrades lines 344-355 (the cited revision).
  - `monitorUpgradesStepBot` embeds src/bot.py, monitor_upgrades lines
    642-675 (the monolithic revision). -/

/-- The only plan field the upgrade classifier compares is its name. -/
structure UpgradePlan where
  name : String
deriving DecidableEq, Repr

inductive UpgradeNotif where
  | newPlan (name : String)
  | completedOrCancelled (name : String)
deriving DecidableEq, Repr

/-- The fetch outcomes the cog's monitor_upgrades distinguishes:
`response.json().get('plan') if response.status_code == 200 else None`
makes every non-200 response (404 included) an absent plan, while an
exception (network error, bad JSON) skips the chain without touching the
cache. -/
inductive CogUpgradeFetch where
  | ok (plan : Option UpgradePlan)
  | error
deriving DecidableEq, Repr

/-- monitoring_tasks.py lines 344-355, one chain: a notification is sent
only when a plan exists now and is new or renamed; the cache entry is then
replaced by the fetched plan.  Nothing is ever sent when the current plan
is absent.  On an exception the cache entry is left unchanged.  Returns
(notifications, new cache entry). -/
def monitorUpgradesStepCog (cache : Option UpgradePlan) (fetch : CogUpgradeFetch) :
    List UpgradeNotif × Option UpgradePlan :=
  match fetch with
  | .error => ([], cache)
  | .ok current =>
      let notifs :=
        match current, cache with
        | some p, none => [UpgradeNotif.newPlan p.name]
        | some p, some o =>
            if p.name ≠ o.name then [UpgradeNotif.newPlan p.name] else []
        | none, _ => []
      (notifs, current)

/-- The fetch outcomes bot.py's monitor_upgrades distinguishes: a 200
response with an optional plan, a 404 (raise_for_status then the
RequestException handler's 404 branch), or any other error. -/
inductive BotUpgradeFetch where
  | ok (plan : Option UpgradePlan)
  | notFound
  | error
deriving DecidableEq, Repr

/-- bot.py lines 642-675, one chain: on 200, a new/renamed plan sends the
new-plan notification, a cached plan now absent sends the
completed-or-cancelled notification with the old plan's name, and the
cache is replaced; on 404, a non-empty cache sends completed-or-cancelled
and the cache entry becomes None; other errors leave the cache alone. -/
def monitorUpgradesStepBot (cache : Option UpgradePlan) (fetch : BotUpgradeFetch) :
    List UpgradeNotif × Option UpgradePlan :=
  match fetch with
  | .error => ([], cache)
  | .notFound =>
      match cache with
      | some o => ([UpgradeNotif.completedOrCancelled o.name], none)
      | none => ([], none)
  | .ok current =>
      let notifs :=
        match current, cache with
        | some p, none => [UpgradeNotif.newPlan p.name]
        | some p, some o =>
            if p.name ≠ o.name then [UpgradeNotif.newPlan p.name] else []
        | none, some o => [UpgradeNotif.completedOrCancelled o.name]
        | none, none => []
      (notifs, current)

/-! ## Chain notification preference repository

The monitoring loops and the configuration command call three db_manager
functions for chain preferences:
  - db_manager.set_chain_notification_preference
    (src/cogs/general_commands.py line 71)
  - db_manager.get_all_chain_notification_chains
    (src/cogs/monitoring_tasks.py lines 182 and 337)
  - db_manager.get_chain_notification_preferences
    (src/cogs/monitoring_tasks.py lines 316 and 390)
The copy of db_manager.py in the repository defines none of them (bot.py
line 1247 notes that a different db_manager revision carries the
chain_notification_settings table), so their semantics below are modelled
from the spec. -/

/-- Modelled from the spec: a chain notification preference row, one per
(channel, chain), with governance/upgrade flags and a mention type
(missing from src/db_manager.py). -/
structure PrefRow where
  channel_id : Int
  chain_name : String
  notify_gov_enabled : Bool
  notify_upgrade_enabled : Bool
  mention_type : Option String
deriving DecidableEq, Repr

/-- Modelled from the spec: upsert of a (channel, chain) preference row —
replace the row with the same key if present, insert otherwise (missing
from src/db_manager.py; consumed at general_commands.py line 71). -/
def set_chain_notification_preference (db : List PrefRow) (channel : Int)
    (chain : String) (gov upg : Bool) (mention : Option String) : List PrefRow :=
  let row : PrefRow :=
    { channel_id := channel, chain_name := chain, notify_gov_enabled := gov,
      notify_upgrade_enabled := upg, mention_type := mention }
  if db.any (fun r => r.channel_id = channel ∧ r.chain_name = chain) then
    db.map (fun r =>
      if r.channel_id = channel ∧ r.chain_name = chain then row else r)
  else db ++ [row]

/-- Modelled from the spec: all preference rows for one chain (missing
from src/db_manager.py; consumed at monitoring_tasks.py lines 316/390). -/
def get_chain_notification_preferences (db : List PrefRow) (chain : String) :
    List PrefRow :=
  db.filter (fun r => r.chain_name = chain)

/-- Modelled from the spec: the distinct chains having any preference row
(missing from src/db_manager.py; consumed at monitoring_tasks.py lines
182/337). -/
def get_all_chain_notification_chains (db : List PrefRow) : List String :=
  (db.map (fun r => r.chain_name)).dedup

/-- The chain-preference operations the modelled repository module
provides. -/
inductive ChainPrefOp where
  | upsertPreference
  | getPreferencesForChain
  | listChainsWithPreferences
deriving DecidableEq, Repr

/-- The chain-preference repository calls the core makes, one entry per
call site, in source order:
general_commands.py:71, monitoring_tasks.py:182, monitoring_tasks.py:316,
monitoring_tasks.py:337, monitoring_tasks.py:390. -/
def coreChainPrefCallSites : List ChainPrefOp :=
  [ChainPrefOp.upsertPreference,
   ChainPrefOp.listChainsWithPreferences,
   ChainPrefOp.getPreferencesForChain,
   ChainPrefOp.listChainsWithPreferences,
   ChainPrefOp.getPreferencesForChain]

/-! ## Helper lemmas -/

/-- Every byte of a SHA-256 digest is below 256 (each digest byte is a
word component reduced modulo 256). -/
theorem sha256_mem_lt (msg : List Nat) : ∀ b ∈ sha256 msg, b < 256 := by
  unfold sha256
  generalize (toBlocks (sha256Pad msg)).foldl compressBlock sha256InitH = hs
  induction hs with
  | nil =>
      intro b hb
      simp only [List.foldr_nil] at hb
      exact absurd hb (List.not_mem_nil b)
  | cons x t ih =>
      intro b hb
      simp only [List.foldr_cons, List.mem_append] at hb
      rcases hb with hb | hb
      · unfold wordBytes at hb
        simp only [List.mem_cons, List.not_mem_nil, or_false] at hb
        rcases hb with rfl | rfl | rfl | rfl <;> exact Nat.mod_lt _ (by norm_num)
      · exact ih b hb

/-- The convertbits fold never fails on byte values below 2^frombits. -/
theorem convertbits_foldl_isSome (frombits tobits maxAcc maxv : Nat)
    (data : List Nat) (h : ∀ b ∈ data, b < 2 ^ frombits) :
    ∀ st : Nat × Nat × List Nat,
      (data.foldl (convertbitsStep frombits tobits maxAcc maxv) (some st)).isSome := by
  induction data with
  | nil => intro st; simp
  | cons v rest ih =>
      intro st
      obtain ⟨acc, bits, ret⟩ := st
      have hv : v < 2 ^ frombits := h v (List.mem_cons_self v rest)
      have hz : v >>> frombits = 0 := by
        rw [Nat.shiftRight_eq_div_pow]
        exact Nat.div_eq_of_lt hv
      simp only [List.foldl_cons, convertbitsStep, hz, ne_eq,
        not_true_eq_false, if_false, ite_false]
      exact ih (fun b hb => h b (List.mem_cons_of_mem v hb)) _

/-- convertbits with pad=True succeeds on any list of bytes below 256. -/
theorem convertbits_8_5_isSome (data : List Nat) (h : ∀ b ∈ data, b < 256) :
    (convertbits data 8 5 true).isSome := by
  have := convertbits_foldl_isSome 8 5 ((1 <<< (8 + 5 - 1)) - 1) ((1 <<< 5) - 1)
    data (by simpa using h) (0, 0, [])
  obtain ⟨res, hres⟩ := Option.isSome_iff_exists.mp this
  obtain ⟨acc, bits, ret⟩ := res
  simp only [convertbits, hres]
  by_cases hb : bits ≠ 0 <;> simp [hb]

/-- The cited api_helpers.py derivation succeeds on every decoded byte
list: it never inspects the length. -/
theorem apiHelpersDerivationTotal (bs : List Nat) (hrp : String) :
    (pubkey_to_consensus_address bs hrp).isSome := by
  have h20 : ∀ b ∈ (sha256 bs).take 20, b < 256 :=
    fun b hb => sha256_mem_lt bs b (List.mem_of_mem_take hb)
  obtain ⟨bits, hbits⟩ :=
    Option.isSome_iff_exists.mp (convertbits_8_5_isSome _ h20)
  simp only [pubkey_to_consensus_address, hbits]
  rfl

/-- The condition under which the bot.py dispatch recognizes a decoded
public key, stated as in the claim: 32 bytes, or 36 bytes with the Amino
header, or 33 bytes starting with 0x02/0x03. -/
def recognizedKeyFormat (bs : List Nat) : Prop :=
  bs.length = 32 ∨
  (bs.length = 36 ∧ bs.take 4 = [0x16, 0x24, 0xde, 0x64]) ∨
  (bs.length = 33 ∧ (bs.headD 0 = 0x02 ∨ bs.headD 0 = 0x03))

theorem rawKeyBytes_isSome_iff (bs : List Nat) :
    (rawKeyBytes bs).isSome ↔ recognizedKeyFormat bs := by
  unfold rawKeyBytes recognizedKeyFormat
  split_ifs with h1 h2 h3 <;> simp_all

/-- On recognized input the bot.py derivation produces some bech32 string
with the requested human-readable part. -/
theorem botDerivationSome (bs raw : List Nat) (hrp : String)
    (hraw : rawKeyBytes bs = some raw) :
    ∃ t, pubkey_to_consensus_address_bot bs hrp = some (hrp ++ "1" ++ t) := by
  have h20 : ∀ b ∈ (sha256 raw).take 20, b < 256 :=
    fun b hb => sha256_mem_lt raw b (List.mem_of_mem_take hb)
  obtain ⟨bits, hbits⟩ :=
    Option.isSome_iff_exists.mp (convertbits_8_5_isSome _ h20)
  simp only [pubkey_to_consensus_address_bot, hraw, hbits]
  exact ⟨_, rfl⟩

/-- With the destination channel found, one successful-fetch run of the
classifier sends exactly the core's alert and always writes back the
core's status with the fetched moniker and missed count. -/
theorem classify_success_found (old : ValRow) (m s : String) (j : Bool) (mi : Int) :
    classify old (.success m s j mi) true =
      { notification := (classifyCore old.status s j mi).1,
        dbWrite := some { moniker := m, status := (classifyCore old.status s j mi).2,
                          missed := mi } } := by
  cases h : (classifyCore old.status s j mi).1 <;> simp [classify, h]

theorem classifyCore_jailed_new (old s : String) (mi : Int) (h : old ≠ "JAILED") :
    classifyCore old s true mi = (some Alert.jailed, "JAILED") := by
  simp [classifyCore, h]

theorem classifyCore_jailed_already (s : String) (mi : Int) :
    classifyCore "JAILED" s true mi = (none, s) := by
  simp [classifyCore]

theorem classifyCore_unjail (s : String) (mi : Int) :
    classifyCore "JAILED" s false mi = (some Alert.recoveredFromJail, s) := by
  simp [classifyCore]

theorem classifyCore_warnZone (old s : String) (mi : Int) (hold : old ≠ "JAILED")
    (hmi : MISSED_BLOCKS_THRESHOLD ≤ mi) :
    classifyCore old s false mi =
      (if old ≠ "WARNING_MISSED_BLOCKS" then some Alert.missedBlocksWarning else none,
       "WARNING_MISSED_BLOCKS") := by
  simp [classifyCore, hold, hmi]

theorem classifyCore_lowZone (old s : String) (mi : Int) (hold : old ≠ "JAILED")
    (hmi : mi < MISSED_BLOCKS_THRESHOLD) :
    classifyCore old s false mi =
      (if old = "WARNING_MISSED_BLOCKS" then some Alert.recoveredMissedBlocks else none,
       s) := by
  have hnot : ¬MISSED_BLOCKS_THRESHOLD ≤ mi := by omega
  by_cases hw : old = "WARNING_MISSED_BLOCKS" <;>
    simp [classifyCore, hold, hnot, hmi, hw]

/-! ## Claim theorems -/

set_option maxRecDepth 20000 in
/-- C1 counterexample: the cited derivation (src/utils/api_helpers.py,
pubkey_to_consensus_address) produces an address for a decoded input of 5
bytes — a length other than 32/33/36 — instead of failing as the claim
states. -/
theorem C1_unrecognized_length_counterexample :
    (pubkey_to_consensus_address [1, 2, 3, 4, 5] "cosmosvalcons").isSome = true := by
  decide

/-- C1 amended: the api_helpers.py revision of the derivation succeeds on
every decoded byte list, never inspecting its length; the length/marker
dispatch the claim describes is implemented by the bot.py revision, whose
derivation succeeds exactly on the three recognized formats (32-byte raw;
36-byte with the Amino header, stripped before hashing; 33-byte starting
0x02/0x03), returns a bech32 string carrying the given prefix, and fails
(returns None) on every other decoded length. -/
theorem C1_address_derivation_amended (bs : List Nat) (hrp : String) :
    ((pubkey_to_consensus_address_bot bs hrp).isSome ↔ recognizedKeyFormat bs)
    ∧ (recognizedKeyFormat bs →
        ∃ t, pubkey_to_consensus_address_bot bs hrp = some (hrp ++ "1" ++ t))
    ∧ ((bs.length = 36 ∧ bs.take 4 = [0x16, 0x24, 0xde, 0x64]) →
        pubkey_to_consensus_address_bot bs hrp =
          pubkey_to_consensus_address_bot (bs.drop 4) hrp)
    ∧ (pubkey_to_consensus_address bs hrp).isSome := by
  refine ⟨?_, ?_, ?_, apiHelpersDerivationTotal bs hrp⟩
  · constructor
    · intro hs
      cases hk : rawKeyBytes bs with
      | none => simp [pubkey_to_consensus_address_bot, hk] at hs
      | some raw =>
          exact (rawKeyBytes_isSome_iff bs).mp (by simp [hk])
    · intro hr
      obtain ⟨raw, hraw⟩ :=
        Option.isSome_iff_exists.mp ((rawKeyBytes_isSome_iff bs).mpr hr)
      obtain ⟨t, ht⟩ := botDerivationSome bs raw hrp hraw
      simp [ht]
  · intro hr
    obtain ⟨raw, hraw⟩ :=
      Option.isSome_iff_exists.mp ((rawKeyBytes_isSome_iff bs).mpr hr)
    exact botDerivationSome bs raw hrp hraw
  · rintro ⟨h36, h4⟩
    have hk : rawKeyBytes bs = some (bs.drop 4) := by
      unfold rawKeyBytes
      rw [if_neg (by omega), if_pos ⟨h36, h4⟩]
    have hk2 : rawKeyBytes (bs.drop 4) = some (bs.drop 4) := by
      unfold rawKeyBytes
      rw [if_pos (by simp [h36])]
    simp [pubkey_to_consensus_address_bot, hk, hk2]

/-- C1 witness: a concrete 36-byte Amino-prefixed key is recognized and
derives the same address as its stripped 32-byte raw key. -/
theorem C1_address_derivation_amended_witness :
    (pubkey_to_consensus_address_bot
        ([0x16, 0x24, 0xde, 0x64] ++ List.replicate 32 7) "val").isSome = true
    ∧ pubkey_to_consensus_address_bot
        ([0x16, 0x24, 0xde, 0x64] ++ List.replicate 32 7) "val" =
      pubkey_to_consensus_address_bot (List.replicate 32 7) "val" := by
  have h := C1_address_derivation_amended
    ([0x16, 0x24, 0xde, 0x64] ++ List.replicate 32 7) "val"
  have h36 : ([0x16, 0x24, 0xde, 0x64] ++ List.replicate 32 7).length = 36 ∧
      ([0x16, 0x24, 0xde, 0x64] ++ List.replicate 32 7).take 4 =
        [0x16, 0x24, 0xde, 0x64] := by decide
  refine ⟨?_, ?_⟩
  · exact (h.1).mpr (Or.inr (Or.inl h36))
  · have := h.2.2.1 h36
    simpa using this

/-- C2 counterexample: in the cited cog revision
(src/cogs/monitoring_tasks.py, monitor_upgrades), a cached plan "v2"
followed by a poll observing no plan produces zero notifications — no
"upgrade completed or cancelled" notification is sent — though the cache
is cleared. -/
theorem C2_plan_disappearance_counterexample :
    monitorUpgradesStepCog (some { name := "v2" }) (.ok none) = ([], none) := by
  rfl

/-- C2 amended: when the current poll observes no plan, the cog revision
clears the cached plan but never sends a notification, for any prior
cache state; the bot.py revision of monitor_upgrades sends the
completed-or-cancelled notification referencing the old plan's name
exactly once — both when a 200 response carries no plan and on a 404 —
after which the cache is empty and further plan-absent polls send
nothing. -/
theorem C2_upgrade_plan_disappearance_amended (cache : Option UpgradePlan)
    (o : UpgradePlan) :
    monitorUpgradesStepCog cache (.ok none) = ([], none)
    ∧ monitorUpgradesStepBot (some o) (.ok none) =
        ([UpgradeNotif.completedOrCancelled o.name], none)
    ∧ monitorUpgradesStepBot (some o) .notFound =
        ([UpgradeNotif.completedOrCancelled o.name], none)
    ∧ monitorUpgradesStepBot none (.ok none) = ([], none)
    ∧ monitorUpgradesStepBot none .notFound = ([], none) := by
  refine ⟨?_, rfl, rfl, rfl, rfl⟩
  cases cache <;> rfl

/-- C3 counterexample: in the cited cog revision, a failed status fetch
with previous status "Bonded" persists API_ERROR (missed count and
moniker retained) but emits no alert notification at all, contrary to the
claimed API_ERROR alert. -/
theorem C3_api_error_no_alert_counterexample :
    classify { moniker := "m", status := "Bonded", missed := 5 } .failure true =
      { notification := none,
        dbWrite := some { moniker := "m", status := "API_ERROR", missed := 5 } } := by
  rfl

/-- C3 amended: on every poll whose fetch fails, the cog classifier emits
no notification of any kind; when the previous persisted status was not
API_ERROR it persists status=API_ERROR with the previous missed count and
moniker retained, and when the previous status was already API_ERROR it
performs no write at all, so the last-check-time is not refreshed. -/
theorem C3_api_failure_amended (old : ValRow) (ch : Bool) :
    (classify old .failure ch).notification = none
    ∧ (old.status ≠ "API_ERROR" →
        (classify old .failure ch).dbWrite =
          some { moniker := old.moniker, status := "API_ERROR", missed := old.missed })
    ∧ (old.status = "API_ERROR" → (classify old .failure ch).dbWrite = none) := by
  by_cases h : old.status = "API_ERROR" <;> simp [classify, h]

/-- C3 witness: the amended statement instantiated at a previous status
"Bonded" and at a previous status "API_ERROR". -/
theorem C3_api_failure_amended_witness :
    (classify { moniker := "m", status := "Bonded", missed := 5 } .failure true).dbWrite =
      some { moniker := "m", status := "API_ERROR", missed := 5 }
    ∧ (classify { moniker := "m", status := "API_ERROR", missed := 5 } .failure true).dbWrite =
      none := by
  constructor
  · exact (C3_api_failure_amended
      { moniker := "m", status := "Bonded", missed := 5 } true).2.1 (by decide)
  · exact (C3_api_failure_amended
      { moniker := "m", status := "API_ERROR", missed := 5 } true).2.2 (by decide)

/-- C4 counterexample: a poll whose fetch fails while the persisted
status is already API_ERROR performs no repository write at all, contrary
to the claimed write-back on every cycle. -/
theorem C4_write_skipped_counterexample :
    classify { moniker := "x", status := "API_ERROR", missed := 7 } .failure true =
      { notification := none, dbWrite := none } := by
  rfl

/-- C4 amended: the per-poll outcome is written back except in exactly
two cases — a failed fetch when the previous status was already
API_ERROR, and a successful fetch whose pending alert aborts the run
because the destination channel cannot be resolved. -/
theorem C4_write_back_amended (old : ValRow) (ch : Bool) (m s : String)
    (j : Bool) (mi : Int) :
    ((classify old .failure ch).dbWrite = none ↔ old.status = "API_ERROR")
    ∧ ((classify old (.success m s j mi) ch).dbWrite = none ↔
        ((classifyCore old.status s j mi).1.isSome ∧ ch = false)) := by
  constructor
  · by_cases h : old.status = "API_ERROR" <;> simp [classify, h]
  · cases hc : (classifyCore old.status s j mi).1 <;> cases ch <;>
      simp [classify, hc]

/-- The upserted row is present in the upserted database. -/
theorem upsert_row_mem (db : List PrefRow) (ch : Int) (chain : String)
    (g u : Bool) (m : Option String) :
    ({ channel_id := ch, chain_name := chain, notify_gov_enabled := g,
       notify_upgrade_enabled := u, mention_type := m } : PrefRow) ∈
      set_chain_notification_preference db ch chain g u m := by
  unfold set_chain_notification_preference
  by_cases hany : db.any (fun r => r.channel_id = ch ∧ r.chain_name = chain)
  · rw [if_pos hany]
    obtain ⟨r, hr, hkey⟩ := List.any_eq_true.mp hany
    refine List.mem_map.mpr ⟨r, hr, ?_⟩
    rw [if_pos (of_decide_eq_true hkey)]
  · rw [if_neg hany]
    exact List.mem_append_right db (List.mem_singleton.mpr rfl)

/-- C5: the chain-notification-preference operations the repository module
provides (modelled from the spec, as src/db_manager.py omits them) cover
every call the governance/upgrade loops and the configuration command
make, and they cohere: an upserted (channel, chain) preference row is
returned by the per-chain read, its chain is listed among the chains with
preferences, and the per-chain read returns only rows of that chain. -/
theorem C5_chain_preference_repository (db : List PrefRow) (ch : Int)
    (chain : String) (g u : Bool) (m : Option String) :
    (∀ op ∈ coreChainPrefCallSites,
        op = ChainPrefOp.upsertPreference ∨
        op = ChainPrefOp.getPreferencesForChain ∨
        op = ChainPrefOp.listChainsWithPreferences)
    ∧ ({ channel_id := ch, chain_name := chain, notify_gov_enabled := g,
         notify_upgrade_enabled := u, mention_type := m } : PrefRow) ∈
        get_chain_notification_preferences
          (set_chain_notification_preference db ch chain g u m) chain
    ∧ chain ∈ get_all_chain_notification_chains
        (set_chain_notification_preference db ch chain g u m)
    ∧ (∀ r ∈ get_chain_notification_preferences db chain, r.chain_name = chain) := by
  refine ⟨by decide, ?_, ?_, ?_⟩
  · exact List.mem_filter.mpr ⟨upsert_row_mem db ch chain g u m, by simp⟩
  · exact List.mem_dedup.mpr
      (List.mem_map.mpr ⟨_, upsert_row_mem db ch chain g u m, rfl⟩)
  · intro r hr
    exact of_decide_eq_true (List.mem_filter.mp hr).2

/-- C5 witness: the repository statement instantiated on the empty
database with a concrete channel and chain. -/
theorem C5_chain_preference_repository_witness :
    ({ channel_id := 42, chain_name := "empe", notify_gov_enabled := true,
       notify_upgrade_enabled := false, mention_type := none } : PrefRow) ∈
      get_chain_notification_preferences
        (set_chain_notification_preference [] 42 "empe" true false none) "empe"
    ∧ "empe" ∈ get_all_chain_notification_chains
        (set_chain_notification_preference [] 42 "empe" true false none) := by
  exact ⟨(C5_chain_preference_repository [] 42 "empe" true false none).2.1,
         (C5_chain_preference_repository [] 42 "empe" true false none).2.2.1⟩

/-- C6: on a successful poll with jailed=true and missed blocks at or
above the threshold, with the previous persisted status not JAILED,
exactly the Jailed alert fires (not the missed-blocks warning) and the
persisted row carries status JAILED with the fetched moniker and missed
count. -/
theorem C6_jailed_priority (old : ValRow) (m s : String) (mi : Int)
    (hold : old.status ≠ "JAILED") (hmi : MISSED_BLOCKS_THRESHOLD ≤ mi) :
    (classify old (.success m s true mi) true).notification = some Alert.jailed
    ∧ (classify old (.success m s true mi) true).notification ≠
        some Alert.missedBlocksWarning
    ∧ (classify old (.success m s true mi) true).dbWrite =
        some { moniker := m, status := "JAILED", missed := mi } := by
  rw [classify_success_found, classifyCore_jailed_new old.status s mi hold]
  refine ⟨rfl, by simp, rfl⟩

/-- C6 witness: a concrete jailed poll at missed count 12 with previous
status Bonded. -/
theorem C6_jailed_priority_witness :
    (classify { moniker := "m", status := "Bonded", missed := 0 }
        (.success "m2" "JAILED" true 12) true).notification = some Alert.jailed
    ∧ (classify { moniker := "m", status := "Bonded", missed := 0 }
        (.success "m2" "JAILED" true 12) true).dbWrite =
        some { moniker := "m2", status := "JAILED", missed := 12 } := by
  have h := C6_jailed_priority { moniker := "m", status := "Bonded", missed := 0 }
    "m2" "JAILED" 12 (by decide) (by decide)
  exact ⟨h.1, h.2.2⟩

/-- C7: once the persisted status is WARNING_MISSED_BLOCKS, any sequence
of successful non-jailed polls whose missed counts stay at or above the
threshold emits zero alerts and leaves the persisted status
WARNING_MISSED_BLOCKS. -/
theorem C7_warning_anti_spam (old : ValRow)
    (polls : List (String × String × Bool × Int))
    (hold : old.status = "WARNING_MISSED_BLOCKS")
    (hp : ∀ q ∈ polls, q.2.2.1 = false ∧ MISSED_BLOCKS_THRESHOLD ≤ q.2.2.2) :
    (runPolls old polls).1 = []
    ∧ (runPolls old polls).2.status = "WARNING_MISSED_BLOCKS" := by
  induction polls generalizing old with
  | nil => exact ⟨rfl, hold⟩
  | cons q rest ih =>
      obtain ⟨m, s, j, mi⟩ := q
      obtain ⟨hj, hmi⟩ := hp (m, s, j, mi) (List.mem_cons_self _ _)
      simp only at hj hmi
      subst hj
      have hcore : classifyCore old.status s false mi =
          (none, "WARNING_MISSED_BLOCKS") := by
        rw [classifyCore_warnZone old.status s mi (by rw [hold]; decide) hmi]
        rw [hold]
        simp
      have hstep : classify old (.success m s false mi) true =
          { notification := none,
            dbWrite := some { moniker := m, status := "WARNING_MISSED_BLOCKS",
                              missed := mi } } := by
        rw [classify_success_found, hcore]
      have hrest := ih { moniker := m, status := "WARNING_MISSED_BLOCKS",
                         missed := mi } rfl
        (fun q hq => hp q (List.mem_cons_of_mem _ hq))
      simp only [runPolls, hstep]
      simpa using hrest

/-- C7 witness: two consecutive above-threshold polls from a persisted
WARNING_MISSED_BLOCKS state emit nothing and preserve the status. -/
theorem C7_warning_anti_spam_witness :
    (runPolls { moniker := "m", status := "WARNING_MISSED_BLOCKS", missed := 50 }
      [("a", "Bonded", false, 55), ("b", "Bonded", false, 60)]).1 = []
    ∧ (runPolls { moniker := "m", status := "WARNING_MISSED_BLOCKS", missed := 50 }
      [("a", "Bonded", false, 55), ("b", "Bonded", false, 60)]).2.status =
      "WARNING_MISSED_BLOCKS" := by
  exact C7_warning_anti_spam
    { moniker := "m", status := "WARNING_MISSED_BLOCKS", missed := 50 }
    [("a", "Bonded", false, 55), ("b", "Bonded", false, 60)]
    (by decide) (by decide)

/-- C8 counterexample: with persisted status JAILED and a fetched record
showing unjailed with missed count 50, the first run emits the
recovered-from-jail alert and persists the plain bonding status (the
recovery branch skips the missed-blocks check), so the second run with
the identical record emits a missed-blocks warning — not zero
notifications. -/
theorem C8_idempotence_counterexample :
    (classify { moniker := "m", status := "JAILED", missed := 50 }
        (.success "m" (resolvedStatus false "BOND_STATUS_BONDED") false 50)
        true).dbWrite =
      some { moniker := "m", status := "Bonded", missed := 50 }
    ∧ (classify { moniker := "m", status := "Bonded", missed := 50 }
        (.success "m" (resolvedStatus false "BOND_STATUS_BONDED") false 50)
        true).notification = some Alert.missedBlocksWarning := by
  decide

/-- C8 amended: the health classifier is idempotent for every
successfully fetched record except in two situations — a record observed
while the persisted status is JAILED that shows unjailed with missed
count at or above the threshold (the recovery branch persists the plain
bonding status, so the identical next poll raises the missed-blocks
warning), and a record whose raw bonding status string passes through the
resolver fallback as the literal JAILED or WARNING_MISSED_BLOCKS.
Outside those, the second run on identical data emits no notification. -/
theorem C8_idempotence_amended (old : ValRow) (m raw : String) (j : Bool)
    (mi : Int) (row : ValRow)
    (hs : j = true ∨ (bondStatusDisplay raw ≠ "JAILED" ∧
                      bondStatusDisplay raw ≠ "WARNING_MISSED_BLOCKS"))
    (hnj : ¬(old.status = "JAILED" ∧ j = false ∧ MISSED_BLOCKS_THRESHOLD ≤ mi))
    (hw : (classify old (.success m (resolvedStatus j raw) j mi) true).dbWrite =
            some row) :
    (classify row (.success m (resolvedStatus j raw) j mi) true).notification =
      none := by
  rw [classify_success_found] at hw
  simp only [Option.some.injEq] at hw
  rw [classify_success_found]
  rw [← hw]
  simp only
  cases j with
  | true =>
      have hres : resolvedStatus true raw = "JAILED" := by simp [resolvedStatus]
      rw [hres]
      by_cases hold : old.status = "JAILED"
      · rw [hold, classifyCore_jailed_already]
        rw [classifyCore_jailed_already]
      · rw [classifyCore_jailed_new old.status "JAILED" mi hold]
        rw [classifyCore_jailed_already]
  | false =>
      have hres : resolvedStatus false raw = bondStatusDisplay raw := by
        simp [resolvedStatus]
      rcases hs with hj | ⟨hs1, hs2⟩
      · exact absurd hj (by simp)
      rw [hres]
      by_cases hold : old.status = "JAILED"
      · have hmi : mi < MISSED_BLOCKS_THRESHOLD := by
          by_contra hc
          exact hnj ⟨hold, rfl, by omega⟩
        rw [hold, classifyCore_unjail]
        rw [classifyCore_lowZone _ _ mi hs1 hmi]
        simp [hs2]
      · by_cases hmi : MISSED_BLOCKS_THRESHOLD ≤ mi
        · rw [classifyCore_warnZone old.status _ mi hold hmi]
          simp only
          rw [classifyCore_warnZone "WARNING_MISSED_BLOCKS" _ mi (by decide) hmi]
          simp
        · have hmi2 : mi < MISSED_BLOCKS_THRESHOLD := by omega
          rw [classifyCore_lowZone old.status _ mi hold hmi2]
          simp only
          rw [classifyCore_lowZone _ _ mi hs1 hmi2]
          simp [hs2]

/-- C8 witness: the amended statement applied at a persisted Bonded row
and a second run from the WARNING_MISSED_BLOCKS row the first run
persisted. -/
theorem C8_idempotence_amended_witness :
    (classify { moniker := "m", status := "WARNING_MISSED_BLOCKS", missed := 55 }
        (.success "m" (resolvedStatus false "BOND_STATUS_BONDED") false 55)
        true).notification = none :=
  C8_idempotence_amended { moniker := "m", status := "Bonded", missed := 0 }
    "m" "BOND_STATUS_BONDED" false 55
    { moniker := "m", status := "WARNING_MISSED_BLOCKS", missed := 55 }
    (Or.inr ⟨by decide, by decide⟩) (by decide) (by decide)

/-- C9: on the first governance poll for a chain (no cache entry exists),
the classifier seeds the cache from the live proposal list and emits zero
notifications, whatever the list contains. -/
theorem C9_governance_cold_start (live : List Proposal) :
    monitorGovernanceStepChain none live = ([], live) := rfl

/-- C10: the cold-start branch keys on the cached map being empty, not on
the poll being literally the first: a poll observing an empty live list
stores an empty map and emits nothing, and the following poll — whatever
live proposals it brings — is again treated as a cold start and emits no
notification. -/
theorem C10_empty_live_cold_start (oldCache : Option (List Proposal))
    (live : List Proposal) :
    monitorGovernanceStepChain oldCache [] = ([], [])
    ∧ monitorGovernanceStepChain
        (some (monitorGovernanceStepChain oldCache []).2) live = ([], live) := by
  have h1 : monitorGovernanceStepChain oldCache [] = ([], []) := by
    cases oldCache with
    | none => rfl
    | some l =>
        by_cases h : l.isEmpty <;> simp [monitorGovernanceStepChain, h]
  refine ⟨h1, ?_⟩
  rw [h1]
  rfl
